import Mathlib

/-!
Shallow embedding of `scripts/initialize_classes.py` (match_reports repository).

Python values handled by the record-level extractors are modelled by the
inductive type `PyVal`; Python `float` payloads are carried as `Rat` (the
scripts only move ratings around, no float arithmetic is performed).
Functions that can raise an uncaught Python exception return
`Except String _`, the error string naming the exception; functions whose
failure paths are swallowed by the source return plain values.

`pandas` operations are modelled by their documented semantics on explicit
list-of-row tables:
  * `DataFrame.drop(labels, axis=1)` raises `KeyError` when any label is
    missing, else removes the columns;
  * `pivot_table(index=['key','group'], columns='period',
    values=['home','away'], aggfunc='first')` with the default
    `dropna=True, sort=True` groups rows by `(key, group)`, keeps only index
    pairs with at least one non-null value, sorts them lexicographically,
    aggregates each `(side, period)` cell with first-non-null, and drops
    result columns that are entirely null — so a `(side, period)` column
    exists exactly when some input row has that period with that side
    non-null;
  * reading a missing `(side, period)` label from a row `Series` raises
    `KeyError`.
-/

/-- Python values as far as the preprocessing code inspects them: floats
(carried as `Rat`), ints, strings, dicts with string keys, lists, `None`. -/
inductive PyVal where
  | pyFloat : Rat → PyVal
  | pyInt : Int → PyVal
  | pyStr : String → PyVal
  | pyDict : List (String × PyVal) → PyVal
  | pyList : List PyVal → PyVal
  | pyNone : PyVal

/-- Models Python `float(x)` coercion on the values that can sit under a
rating dict's `"original"` key: floats and ints coerce, numeric strings
parse (modelled for unsigned-integer literals, the only string form any
claim touches), everything else fails. -/
def floatCoerce : PyVal → Option Rat
  | .pyFloat q => some q
  | .pyInt n => some (n : Rat)
  | .pyStr s => (s.toNat?).map (fun n => (n : Rat))
  | _ => none

/-- Embedding of `Preprocessor.extract_rating` (initialize_classes.py lines
148-171). The source names its parameter `json`, shadowing the `json`
module. Consequences, reproduced here:
  * `isinstance(json, float)` branch returns the float unchanged;
  * `isinstance(json, str)` branch evaluates `json.loads(json)` — an
    attribute lookup on a `str` — raising `AttributeError`; evaluating the
    `except (json.JSONDecodeError, ...)` tuple raises `AttributeError`
    again, so the exception escapes;
  * `isinstance(json, dict)` branch returns `float(json['original'])` when
    the key is present and coercible; on `KeyError`/`TypeError`/`ValueError`
    the `except` tuple evaluates `json.JSONDecodeError` on the dict and the
    resulting `AttributeError` escapes;
  * any other type returns `None`.
(Behaviour confirmed on CPython: a string input raises
`AttributeError: str object has no attribute JSONDecodeError`.) -/
def extract_rating : PyVal → Except String (Option Rat)
  | .pyFloat q => .ok (some q)
  | .pyStr _ => .error "AttributeError: str object has no attribute JSONDecodeError"
  | .pyDict d =>
      match d.lookup "original" with
      | some v =>
          match floatCoerce v with
          | some q => .ok (some q)
          | none => .error "AttributeError: dict object has no attribute JSONDecodeError"
      | none => .error "AttributeError: dict object has no attribute JSONDecodeError"
  | _ => .ok none

/-- Embedding of `Preprocessor.extract_country_name` (lines 133-146). The
source does `try: return json_dict['name'] except (json.JSONDecodeError,
KeyError): return None`. Only `KeyError` (and the never-raised JSON error)
is caught: subscripting `None`, a string, an int, a float or a list with
the string key `'name'` raises `TypeError`, which escapes. -/
def extract_country_name : PyVal → Except String (Option PyVal)
  | .pyDict d => .ok (d.lookup "name")
  | .pyNone => .error "TypeError: NoneType object is not subscriptable"
  | .pyStr _ => .error "TypeError: string indices must be integers"
  | _ => .error "TypeError: object is not subscriptable"

/-- One row of the player-stats DataFrame as the position filter sees it:
the pandas index label and the `position` column value. -/
structure PRow where
  pid : Nat
  position : String
deriving DecidableEq

/-- The player-stats DataFrame: its column names and its rows. Column drops
touch `cols`; row filters touch `rows`. -/
structure PlayerDF where
  cols : List String
  rows : List PRow
deriving DecidableEq

/-- Column list dropped by `preprocess_gk` (lines 109-111). -/
def gk_drop_cols : List String :=
  ["totalCross", "shotOffTarget", "onTargetScoringAttempt", "expectedGoals",
   "bigChanceMissed", "outfielderBlock", "accurateCross", "goals", "totalOffside"]

/-- Column list dropped by `preprocess_outfield` (lines 126-127). -/
def outfield_drop_cols : List String :=
  ["goodHighClaim", "savedShotsFromInsideTheBox", "saves", "punches",
   "totalKeeperSweeper", "accurateKeeperSweeper", "goalsPrevented"]

/-- Models `df.drop(toDrop, axis=1)`: pandas raises `KeyError` when any
label in `toDrop` is not a column, otherwise removes the listed columns. -/
def dfDrop (cols toDrop : List String) : Except String (List String) :=
  if toDrop.all (fun c => cols.contains c) then
    .ok (cols.filter (fun c => !toDrop.contains c))
  else .error "KeyError"

/-- Models the source's `try: df.drop(...) except: pass` — the bare
`except` swallows the `KeyError` and leaves the frame unchanged. -/
def tryDrop (cols toDrop : List String) : List String :=
  match dfDrop cols toDrop with
  | .ok c => c
  | .error _ => cols

/-- Embedding of `Preprocessor.preprocess_gk` (lines 100-114):
`gk_df = df.loc[df["position"] == "G"]`, then a guarded drop of the
keeper-irrelevant columns. -/
def preprocess_gk (df : PlayerDF) : PlayerDF :=
  { cols := tryDrop df.cols gk_drop_cols,
    rows := df.rows.filter (fun r => r.position == "G") }

/-- Embedding of `Preprocessor.preprocess_outfield` (lines 116-131): a
guarded drop of the keeper-stat columns, then
`df.drop(df[df.position == "GK"].index)` whose result is NOT assigned —
the returned frame keeps every row, goalkeepers included (and the filter
tests `"GK"` while the goalkeeper rows carry position `"G"`). -/
def preprocess_outfield (df : PlayerDF) : PlayerDF :=
  { cols := tryDrop df.cols outfield_drop_cols,
    rows := df.rows }

/-- One row of the team-stats DataFrame consumed by `get_team_llm_prompt`:
statistic key, category group, period scope (`"ALL"`, `"1ST"` or `"2ND"`),
and the home/away cell values. A cell is `none` where the frame holds NaN;
a present cell carries the string it interpolates to in an f-string. -/
structure StatRow where
  key : String
  group : String
  period : String
  home : Option String
  away : Option String
deriving DecidableEq

/-- Side accessor for the `'home'` value column. -/
def homeSide (r : StatRow) : Option String := r.home

/-- Side accessor for the `'away'` value column. -/
def awaySide (r : StatRow) : Option String := r.away

/-- The nested `match_dict` fields read by `get_team_llm_prompt`
(lines 183-196), flattened: each field is one chain of dict lookups in the
source. Scores, season year and round are Python ints. -/
structure MatchDict where
  tournament_name : String
  season_year : Int
  roundInfo_round : Int
  homeTeam_name : String
  homeTeam_manager_name : String
  awayTeam_name : String
  awayTeam_manager_name : String
  venue_stadium_name : String
  homeScore_period1 : Int
  homeScore_current : Int
  awayScore_period1 : Int
  awayScore_current : Int

/-- Whether the pivot table has a `(side, p)` column: with the default
`dropna=True`, `pivot_table` keeps the column exactly when some input row
has period `p` with that side non-null (all-NaN columns are dropped). -/
def colExists (rows : List StatRow) (side : StatRow → Option String) (p : String) : Bool :=
  rows.any (fun r => r.period == p && (side r).isSome)

/-- The pivot cell for group `(k, g)`, side column `side`, period `p`:
`aggfunc='first'` takes the first non-null value among the group's rows
with that period (pandas `GroupBy.first` skips NaN). -/
def sideVal (rows : List StatRow) (side : StatRow → Option String) (k g p : String) :
    Option String :=
  ((rows.filter (fun r =>
      r.key == k && r.group == g && r.period == p && (side r).isSome)).head?).bind side

/-- Models `row[(side, period)]` in the loop body (lines 208-209): raises
`KeyError` when the pivot has no such column, else yields the cell (which
may still be NaN, i.e. `none`). -/
def rowAccess (rows : List StatRow) (side : StatRow → Option String) (k g p : String) :
    Except String (Option String) :=
  if colExists rows side p then .ok (sideVal rows side k g p)
  else .error ("KeyError: " ++ p)

/-- The clause emitted for one period (lines 211-216): both sides present,
home only, away only, or nothing when both are NaN. -/
def clauseFor (p : String) : Option String → Option String → String
  | some h, some a => p ++ ": Home " ++ h ++ ", Away " ++ a ++ "; "
  | some h, none => p ++ ": Home " ++ h ++ "; "
  | none, some a => p ++ ": Away " ++ a ++ "; "
  | none, none => ""

/-- The inner `for period in ['ALL', '1ST', '2ND']` loop for one statistic
group: reads the home cell, then the away cell (each read can raise), and
appends the period clause. -/
def periodsClause (rows : List StatRow) (k g : String) : List String → Except String String
  | [] => .ok ""
  | p :: ps =>
      match rowAccess rows homeSide k g p with
      | .error e => .error e
      | .ok home =>
          match rowAccess rows awaySide k g p with
          | .error e => .error e
          | .ok away =>
              match periodsClause rows k g ps with
              | .error e => .error e
              | .ok rest => .ok (clauseFor p home away ++ rest)

/-- Lexicographic order on `(key, group)` pairs: pandas `groupby` with
`sort=True` sorts the pivot index by key, then by group. -/
def pairRel (a b : String × String) : Prop :=
  a.1 < b.1 ∨ (a.1 = b.1 ∧ a.2 ≤ b.2)

instance (a b : String × String) : Decidable (pairRel a b) := by
  unfold pairRel
  infer_instance

instance : IsTotal (String × String) pairRel := by
  constructor
  intro a b
  rcases lt_trichotomy a.1 b.1 with h | h | h
  · exact Or.inl (Or.inl h)
  · rcases le_total a.2 b.2 with h2 | h2
    · exact Or.inl (Or.inr ⟨h, h2⟩)
    · exact Or.inr (Or.inr ⟨h.symm, h2⟩)
  · exact Or.inr (Or.inl h)

instance : IsTrans (String × String) pairRel := by
  constructor
  intro a b c hab hbc
  rcases hab with h1 | ⟨e1, l1⟩ <;> rcases hbc with h2 | ⟨e2, l2⟩
  · exact Or.inl (lt_trans h1 h2)
  · exact Or.inl (e2 ▸ h1)
  · exact Or.inl (e1 ▸ h2)
  · exact Or.inr ⟨e1.trans e2, le_trans l1 l2⟩

instance : IsAntisymm (String × String) pairRel := by
  constructor
  intro a b hab hba
  rcases hab with h1 | ⟨e1, l1⟩ <;> rcases hba with h2 | ⟨e2, l2⟩
  · exact absurd (lt_trans h1 h2) (lt_irrefl _)
  · exact absurd h1 (e2 ▸ lt_irrefl _)
  · exact absurd h2 (e1 ▸ lt_irrefl _)
  · exact Prod.ext e1 (le_antisymm l1 l2)

/-- The pivot-table index iterated by the loop (line 204): the distinct
`(key, group)` pairs that have at least one non-null cell (`dropna=True`
drops all-NaN aggregated rows), sorted lexicographically (`sort=True`). -/
def pivotIndex (rows : List StatRow) : List (String × String) :=
  List.insertionSort pairRel
    (((rows.filter (fun r => r.home.isSome || r.away.isSome)).map
        (fun r => (r.key, r.group))).dedup)

/-- The outer `for index, row in pivot_df.iterrows()` loop (lines 204-217),
run over a given index list: each group contributes
`key ++ ": " ++ clauses ++ "\n\n"`. -/
def statsSection (rows : List StatRow) : List (String × String) → Except String String
  | [] => .ok ""
  | (k, g) :: rest =>
      match periodsClause rows k g ["ALL", "1ST", "2ND"] with
      | .error e => .error e
      | .ok c =>
          match statsSection rows rest with
          | .error e => .error e
          | .ok r => .ok (k ++ ": " ++ c ++ "\n\n" ++ r)

/-- The metadata block appended after the loop (lines 218-222). -/
def metaSection (md : MatchDict) : String :=
  "Competition: " ++ md.tournament_name ++ " - Season: " ++ toString md.season_year ++
  " - Gameweek: " ++ toString md.roundInfo_round ++ " at Stadium: " ++
  md.venue_stadium_name ++ "\n\n" ++
  "Home Team: " ++ md.homeTeam_name ++ ", Home Team Manager: " ++
  md.homeTeam_manager_name ++ "\n\n" ++
  "Away Team: " ++ md.awayTeam_name ++ ", Away Team Manager: " ++
  md.awayTeam_manager_name ++ "\n\n" ++
  "Score at half time " ++ md.homeTeam_name ++ ": " ++ toString md.homeScore_period1 ++
  ", " ++ md.awayTeam_name ++ ": " ++ toString md.awayScore_period1 ++ "\n\n" ++
  "Score at full time " ++ md.homeTeam_name ++ ": " ++ toString md.homeScore_current ++
  ", " ++ md.awayTeam_name ++ ": " ++ toString md.awayScore_current ++ "\n\n"

/-- The fixed closing instruction (lines 224-226), with the source's
missing space between the two sentences reproduced. -/
def closingInstruction : String :=
  "Generate an interesting and extensive match report, utilising only the information given." ++
  "Start off with the competition, gameweek, teams and score. Do not make " ++
  "anything up. Do not assume anything. The only true facts are provided."

/-- Embedding of `Preprocessor.get_team_llm_prompt` (lines 173-229): header,
pivoted statistics section (which can raise `KeyError`), metadata block,
closing instruction. -/
def get_team_llm_prompt (game_stats : List StatRow) (md : MatchDict) : Except String String :=
  match statsSection game_stats (pivotIndex game_stats) with
  | .error e => .error e
  | .ok stats =>
      .ok ("Match Stats Summary: \n\n" ++ stats ++ metaSection md ++ closingInstruction)

/-- An HTTP response as `LLM.general_match_report` reads it: status code and
body text. -/
structure HttpResponse where
  status_code : Nat
  text : String

/-- Embedding of `LLM.general_match_report` (lines 239-274). The POST
exchange is the `resp` argument. On status 200 the body is fed to
`json.loads(...)['response']`, modelled by the `parseResponse` oracle
(`none` = the uncaught decode/key error); on any other status the function
builds the literal fallback string. The second POST in the source (lines
261-273) only prints inside its own `try/except RequestException` and does
not change `generated_report`. -/
def general_match_report (parseResponse : String → Option String)
    (resp : HttpResponse) : Except String String :=
  if resp.status_code = 200 then
    match parseResponse resp.text with
    | some r => .ok r
    | none => .error "JSONDecodeError or KeyError"
  else
    .ok ("Error:, " ++ toString resp.status_code ++ ", " ++ resp.text ++ ", unluggy no report")

/-- The `Scraper` object state: the match URL it was constructed with
(line 17). -/
structure Scraper where
  url : String

/-- The URL hardwired into `Scraper.get_understat_match` (line 67). -/
def understat_match_url : String := "https://understat.com/match/26631"

/-- Embedding of `Scraper.get_understat_match` (lines 61-68): calls
`self.us.scrape_match` — modelled by the `scrape_match` oracle — on the
hardwired Understat URL; `self.url` is never consulted. -/
def get_understat_match {α : Type} (scrape_match : String → α) (_s : Scraper) : α :=
  scrape_match understat_match_url

/-- Whether an embedded computation returned normally (`true`) or raised an
uncaught Python exception (`false`). -/
def returnsValue {α : Type} : Except String α → Bool
  | .ok _ => true
  | .error _ => false

/-- C1: the claim states `extract_rating` never raises, parses string inputs
as structured data, and maps a mapping to `float(v['original'])` or null.
On the code this is false: because the parameter `json` shadows the `json`
module, every string input raises `AttributeError` (both `json.loads(json)`
and the `except` tuple are attribute lookups on the string), and a mapping
whose `'original'` key is missing or non-coercible raises `AttributeError`
while evaluating the `except` tuple. Floats are returned unchanged and
other types yield null, as claimed. -/
theorem c1_extract_rating_raises (s : String) :
    extract_rating (PyVal.pyStr s) =
      Except.error "AttributeError: str object has no attribute JSONDecodeError" ∧
    extract_rating (PyVal.pyDict []) =
      Except.error "AttributeError: dict object has no attribute JSONDecodeError" ∧
    (∀ q : Rat, extract_rating (PyVal.pyFloat q) = Except.ok (some q)) :=
  ⟨rfl, rfl, fun _ => rfl⟩

/-- C9: an `int` input matches neither the float, string nor mapping
`isinstance` branch of `extract_rating`, so it falls through to the final
`else` and yields null; only exact floats are returned unchanged. -/
theorem c9_int_input_yields_null (n : Int) :
    extract_rating (PyVal.pyInt n) = Except.ok none ∧
    (∀ q : Rat, extract_rating (PyVal.pyFloat q) = Except.ok (some q)) :=
  ⟨rfl, fun _ => rfl⟩

/-- Single-goalkeeper frame used to exhibit the position-filter defect. -/
def c2df : PlayerDF := { cols := ["position"], rows := [⟨0, "G"⟩] }

/-- C2: the claim states the goalkeeper/outfield split is an exhaustive and
disjoint partition. On the code this is false: `preprocess_outfield`
computes `df.drop(df[df.position == "GK"].index)` but never assigns the
result (and tests `"GK"` where goalkeeper rows carry `"G"`), so its output
keeps every row and a goalkeeper record appears in both subsets. -/
theorem c2_goalkeeper_in_both_subsets :
    (∀ df : PlayerDF, (preprocess_outfield df).rows = df.rows) ∧
    (preprocess_gk c2df).rows = [⟨0, "G"⟩] ∧
    (preprocess_outfield c2df).rows = [⟨0, "G"⟩] :=
  ⟨fun _ => rfl, rfl, rfl⟩

/-- C3 counterexample: the claim says `extract_country_name` returns null
when the input is null; on the code, `None['name']` raises `TypeError`,
which the `except (json.JSONDecodeError, KeyError)` clause does not catch. -/
theorem c3_counterexample_none_raises :
    returnsValue (extract_country_name PyVal.pyNone) = false := rfl

/-- C3 (amended): `extract_country_name` returns `v['name']` when `v` is a
mapping containing `'name'` and null when a mapping lacks the field, but
raises `TypeError` (does not return) for null and every non-mapping input. -/
theorem c3_amended_country_name (v : PyVal) :
    (∀ d, v = PyVal.pyDict d → extract_country_name v = Except.ok (d.lookup "name")) ∧
    ((∀ d, v ≠ PyVal.pyDict d) → returnsValue (extract_country_name v) = false) := by
  cases v with
  | pyDict d => exact ⟨fun d' h => by cases h; rfl, fun h => absurd rfl (h d)⟩
  | pyFloat q => exact ⟨fun d h => (nomatch h), fun _ => rfl⟩
  | pyInt n => exact ⟨fun d h => (nomatch h), fun _ => rfl⟩
  | pyStr s => exact ⟨fun d h => (nomatch h), fun _ => rfl⟩
  | pyList l => exact ⟨fun d h => (nomatch h), fun _ => rfl⟩
  | pyNone => exact ⟨fun d h => (nomatch h), fun _ => rfl⟩

/-- Concrete mapping input for the C3 witness. -/
def franceDict : List (String × PyVal) := [("name", PyVal.pyStr "France")]

/-- Witness for the amended C3 theorem at concrete inputs. -/
theorem c3_amended_witness :
    extract_country_name (PyVal.pyDict franceDict) = Except.ok (some (PyVal.pyStr "France")) ∧
    returnsValue (extract_country_name PyVal.pyNone) = false :=
  ⟨(c3_amended_country_name (PyVal.pyDict franceDict)).1 franceDict rfl,
   (c3_amended_country_name PyVal.pyNone).2 (fun _ h => (nomatch h))⟩

/-- C7: for every non-200 response, `general_match_report` returns (does
not raise) the literal fallback string, which embeds the status code and
the response body as substrings. -/
theorem c7_fallback_on_non_success (parseResponse : String → Option String)
    (resp : HttpResponse) (h : resp.status_code ≠ 200) :
    general_match_report parseResponse resp =
      Except.ok ("Error:, " ++ toString resp.status_code ++ ", " ++ resp.text ++
        ", unluggy no report") ∧
    (∃ s1 s2 : String, "Error:, " ++ toString resp.status_code ++ ", " ++ resp.text ++
        ", unluggy no report" = s1 ++ toString resp.status_code ++ s2) ∧
    (∃ s1 s2 : String, "Error:, " ++ toString resp.status_code ++ ", " ++ resp.text ++
        ", unluggy no report" = s1 ++ resp.text ++ s2) := by
  refine ⟨?_, ⟨"Error:, ", ", " ++ resp.text ++ ", unluggy no report", ?_⟩,
    ⟨"Error:, " ++ toString resp.status_code ++ ", ", ", unluggy no report", ?_⟩⟩
  · simp [general_match_report, h]
  · simp [String.append_assoc]
  · rfl

/-- Concrete failed response for the C7 witness. -/
def c7resp : HttpResponse := { status_code := 404, text := "not found" }

/-- Witness for C7 at a concrete 404 response. -/
theorem c7_fallback_witness :
    c7resp.status_code ≠ 200 ∧
    (general_match_report (fun _ => none) c7resp =
      Except.ok ("Error:, " ++ toString c7resp.status_code ++ ", " ++ c7resp.text ++
        ", unluggy no report") ∧
    (∃ s1 s2 : String, "Error:, " ++ toString c7resp.status_code ++ ", " ++ c7resp.text ++
        ", unluggy no report" = s1 ++ toString c7resp.status_code ++ s2) ∧
    (∃ s1 s2 : String, "Error:, " ++ toString c7resp.status_code ++ ", " ++ c7resp.text ++
        ", unluggy no report" = s1 ++ c7resp.text ++ s2)) :=
  ⟨by decide, c7_fallback_on_non_success (fun _ => none) c7resp (by decide)⟩

/-- C8: when any column of the fixed drop list is absent, the pandas drop
raises `KeyError`, the bare `except: pass` swallows it, and both shaping
functions still complete: the column set is left unchanged and the row
shaping still happens. -/
theorem c8_missing_columns_skipped (df : PlayerDF)
    (h1 : ∃ c ∈ gk_drop_cols, c ∉ df.cols)
    (h2 : ∃ c ∈ outfield_drop_cols, c ∉ df.cols) :
    dfDrop df.cols gk_drop_cols = Except.error "KeyError" ∧
    preprocess_gk df =
      { cols := df.cols, rows := df.rows.filter (fun r => r.position == "G") } ∧
    dfDrop df.cols outfield_drop_cols = Except.error "KeyError" ∧
    preprocess_outfield df = { cols := df.cols, rows := df.rows } := by
  obtain ⟨c1, hc1, hm1⟩ := h1
  obtain ⟨c2, hc2, hm2⟩ := h2
  have p1 : ¬ ∀ x ∈ gk_drop_cols, x ∈ df.cols := fun hall => hm1 (hall c1 hc1)
  have p2 : ¬ ∀ x ∈ outfield_drop_cols, x ∈ df.cols := fun hall => hm2 (hall c2 hc2)
  refine ⟨?_, ?_, ?_, ?_⟩
  · simp [dfDrop, p1]
  · simp [preprocess_gk, tryDrop, dfDrop, p1]
  · simp [dfDrop, p2]
  · simp [preprocess_outfield, tryDrop, dfDrop, p2]

/-- Frame with none of the droppable columns, for the C8 witness. -/
def c8df : PlayerDF := { cols := ["position", "country"], rows := [⟨0, "G"⟩, ⟨1, "D"⟩] }

/-- Witness for C8 at a concrete frame missing every optional column. -/
theorem c8_missing_columns_witness :
    (∃ c ∈ gk_drop_cols, c ∉ c8df.cols) ∧ (∃ c ∈ outfield_drop_cols, c ∉ c8df.cols) ∧
    (dfDrop c8df.cols gk_drop_cols = Except.error "KeyError" ∧
     preprocess_gk c8df =
       { cols := c8df.cols, rows := c8df.rows.filter (fun r => r.position == "G") } ∧
     dfDrop c8df.cols outfield_drop_cols = Except.error "KeyError" ∧
     preprocess_outfield c8df = { cols := c8df.cols, rows := c8df.rows }) :=
  ⟨by decide, by decide, c8_missing_columns_skipped c8df (by decide) (by decide)⟩

/-- C10: `get_understat_match` calls the secondary provider on the
hardwired URL `https://understat.com/match/26631`; two scrapers built with
different match URLs produce the same fetch. -/
theorem c10_understat_ignores_url {α : Type} (scrape_match : String → α)
    (s1 s2 : Scraper) (h : s1.url ≠ s2.url) :
    get_understat_match scrape_match s1 = get_understat_match scrape_match s2 ∧
    get_understat_match scrape_match s1 = scrape_match understat_match_url :=
  ⟨rfl, rfl⟩

/-- Witness for C10 at two concrete scrapers with distinct URLs. -/
theorem c10_understat_witness :
    (Scraper.mk "https://a").url ≠ (Scraper.mk "https://b").url ∧
    (get_understat_match id (Scraper.mk "https://a") =
       get_understat_match id (Scraper.mk "https://b") ∧
     get_understat_match id (Scraper.mk "https://a") = id understat_match_url) :=
  ⟨by decide, c10_understat_ignores_url id (Scraper.mk "https://a") (Scraper.mk "https://b")
    (by decide)⟩

/-- The single full-period statistic row of the end-to-end scenario. -/
def possessionRow : StatRow :=
  { key := "Possession", group := "General", period := "ALL",
    home := some "60", away := some "40" }

/-- The match metadata of the end-to-end scenario. -/
def c5match : MatchDict :=
  { tournament_name := "Premier League", season_year := 2024, roundInfo_round := 10,
    homeTeam_name := "Liverpool", homeTeam_manager_name := "Arne Slot",
    awayTeam_name := "Man Utd", awayTeam_manager_name := "Ruben Amorim",
    venue_stadium_name := "Anfield",
    homeScore_period1 := 1, homeScore_current := 2,
    awayScore_period1 := 0, awayScore_current := 1 }

/-- C5: the claim's end-to-end scenario expects a prompt containing
"Possession: ALL: Home 60, Away 40;" and the two score lines. On the code
the build never returns a prompt: with only a full-period row in the
table, `pivot_table` (default `dropna=True`) creates columns only for
period `'ALL'`, and the loop's unconditional read of `row[('home','1ST')]`
raises `KeyError`, so none of the claimed clauses is produced. -/
theorem c5_end_to_end_scenario_raises :
    get_team_llm_prompt [possessionRow] c5match = Except.error "KeyError: 1ST" := rfl

/-- Reading a pivot column that exists succeeds with the aggregated cell. -/
theorem rowAccess_ok (rows : List StatRow) (side : StatRow → Option String) (k g p : String)
    (h : colExists rows side p = true) :
    rowAccess rows side k g p = Except.ok (sideVal rows side k g p) := by
  simp [rowAccess, h]

/-- C4: within a built prompt (all six pivot columns exist), each statistic
group's clause list is the concatenation, in the fixed order ALL, 1ST,
2ND, of one clause per period; a period with both cells present renders
"period: Home X, Away Y; ", a period with one side renders only that
side, and a period with neither side contributes nothing. -/
theorem c4_period_clause_structure (rows : List StatRow) (k g : String)
    (hcols : ∀ p ∈ (["ALL", "1ST", "2ND"] : List String),
      colExists rows homeSide p = true ∧ colExists rows awaySide p = true) :
    periodsClause rows k g ["ALL", "1ST", "2ND"] = Except.ok
      (clauseFor "ALL" (sideVal rows homeSide k g "ALL") (sideVal rows awaySide k g "ALL") ++
       (clauseFor "1ST" (sideVal rows homeSide k g "1ST") (sideVal rows awaySide k g "1ST") ++
        clauseFor "2ND" (sideVal rows homeSide k g "2ND") (sideVal rows awaySide k g "2ND"))) ∧
    (∀ p h a, clauseFor p (some h) (some a) = p ++ ": Home " ++ h ++ ", Away " ++ a ++ "; ") ∧
    (∀ p h, clauseFor p (some h) none = p ++ ": Home " ++ h ++ "; ") ∧
    (∀ p a, clauseFor p none (some a) = p ++ ": Away " ++ a ++ "; ") ∧
    (∀ p, clauseFor p none none = "") := by
  have hA := hcols "ALL" (by simp)
  have h1 := hcols "1ST" (by simp)
  have h2 := hcols "2ND" (by simp)
  refine ⟨?_, fun p h a => rfl, fun p h => rfl, fun p a => rfl, fun p => rfl⟩
  simp only [periodsClause,
    rowAccess_ok rows homeSide k g "ALL" hA.1, rowAccess_ok rows awaySide k g "ALL" hA.2,
    rowAccess_ok rows homeSide k g "1ST" h1.1, rowAccess_ok rows awaySide k g "1ST" h1.2,
    rowAccess_ok rows homeSide k g "2ND" h2.1, rowAccess_ok rows awaySide k g "2ND" h2.2,
    String.append_empty]

/-- Team-stats table with every period present on both sides somewhere,
exhibiting all three clause shapes for the group ("Shots", "Shooting"). -/
def c4rows : List StatRow :=
  [{ key := "Shots", group := "Shooting", period := "ALL", home := some "12", away := some "9" },
   { key := "Shots", group := "Shooting", period := "1ST", home := some "5", away := none },
   { key := "Shots", group := "Shooting", period := "2ND", home := none, away := some "4" },
   { key := "Fouls", group := "General", period := "ALL", home := some "10", away := some "12" },
   { key := "Fouls", group := "General", period := "1ST", home := some "6", away := some "7" },
   { key := "Fouls", group := "General", period := "2ND", home := some "4", away := some "5" }]

/-- Witness for C4 at the concrete table, group ("Shots", "Shooting"). -/
theorem c4_period_clause_witness :
    (∀ p ∈ (["ALL", "1ST", "2ND"] : List String),
      colExists c4rows homeSide p = true ∧ colExists c4rows awaySide p = true) ∧
    (periodsClause c4rows "Shots" "Shooting" ["ALL", "1ST", "2ND"] = Except.ok
      (clauseFor "ALL" (sideVal c4rows homeSide "Shots" "Shooting" "ALL")
         (sideVal c4rows awaySide "Shots" "Shooting" "ALL") ++
       (clauseFor "1ST" (sideVal c4rows homeSide "Shots" "Shooting" "1ST")
          (sideVal c4rows awaySide "Shots" "Shooting" "1ST") ++
        clauseFor "2ND" (sideVal c4rows homeSide "Shots" "Shooting" "2ND")
          (sideVal c4rows awaySide "Shots" "Shooting" "2ND"))) ∧
    (∀ p h a, clauseFor p (some h) (some a) = p ++ ": Home " ++ h ++ ", Away " ++ a ++ "; ") ∧
    (∀ p h, clauseFor p (some h) none = p ++ ": Home " ++ h ++ "; ") ∧
    (∀ p a, clauseFor p none (some a) = p ++ ": Away " ++ a ++ "; ") ∧
    (∀ p, clauseFor p none none = "")) :=
  ⟨by decide, c4_period_clause_structure c4rows "Shots" "Shooting" (by decide)⟩

/-- Boolean `List.any` is invariant under permutation. -/
theorem any_eq_of_perm {α : Type} {l l' : List α} (h : l.Perm l') (q : α → Bool) :
    l.any q = l'.any q := by
  apply Bool.eq_iff_iff.mpr
  simp only [List.any_eq_true]
  constructor <;> rintro ⟨x, hx, hq⟩
  · exact ⟨x, h.mem_iff.mp hx, hq⟩
  · exact ⟨x, h.mem_iff.mpr hx, hq⟩

/-- Pivot column existence does not depend on the order rows arrive in. -/
theorem colExists_perm (rows rows' : List StatRow) (side : StatRow → Option String)
    (p : String) (hp : rows.Perm rows') : colExists rows side p = colExists rows' side p :=
  any_eq_of_perm hp _

/-- A filter whose predicate pins the mapped key to a fixed value selects
at most one element of a list whose mapped keys are nodup. -/
theorem filter_length_le_one {α β : Type} [DecidableEq β] (f : α → β) (c : β) (q : α → Bool)
    (hq : ∀ x, q x = true → f x = c) :
    ∀ l : List α, (l.map f).Nodup → (l.filter q).length ≤ 1
  | [], _ => by simp
  | x :: xs, hnd => by
      rw [List.map_cons, List.nodup_cons] at hnd
      by_cases hx : q x = true
      · rw [List.filter_cons_of_pos hx]
        have hnil : xs.filter q = [] := by
          rw [List.filter_eq_nil_iff]
          intro a ha hqa
          have hfa : f a = f x := (hq a hqa).trans (hq x hx).symm
          exact hnd.1 (hfa ▸ List.mem_map_of_mem f ha)
        simp [hnil]
      · rw [List.filter_cons_of_neg (by simpa using hx)]
        exact filter_length_le_one f c q hq xs hnd.2

/-- A permutation of a list with at most one element is the identity. -/
theorem eq_of_perm_of_length_le_one {α : Type} {l l' : List α} (h : l.Perm l')
    (hl : l.length ≤ 1) : l = l' := by
  cases l with
  | nil => exact h.symm.eq_nil.symm
  | cons x xs =>
      cases xs with
      | nil => exact (List.perm_singleton.mp h.symm).symm
      | cons y ys => simp at hl

/-- The aggregated pivot cell does not depend on row order when every
(key, group, period) triple occurs at most once in the table. -/
theorem sideVal_perm (rows rows' : List StatRow) (side : StatRow → Option String)
    (k g p : String) (hp : rows.Perm rows')
    (hnd : (rows.map (fun r => (r.key, r.group, r.period))).Nodup) :
    sideVal rows side k g p = sideVal rows' side k g p := by
  have hq : ∀ x : StatRow,
      (x.key == k && x.group == g && x.period == p && (side x).isSome) = true →
      (fun r : StatRow => (r.key, r.group, r.period)) x = (k, g, p) := by
    intro x hx
    simp only [Bool.and_eq_true, beq_iff_eq] at hx
    show (x.key, x.group, x.period) = (k, g, p)
    exact Prod.ext hx.1.1.1 (Prod.ext hx.1.1.2 hx.1.2)
  have hfil := hp.filter
    (fun r : StatRow => r.key == k && r.group == g && r.period == p && (side r).isSome)
  have hlen := filter_length_le_one (fun r : StatRow => (r.key, r.group, r.period))
    (k, g, p) _ hq rows hnd
  unfold sideVal
  rw [eq_of_perm_of_length_le_one hfil hlen]

/-- A pivot cell read gives the same outcome for any arrival order of the
rows (given unique triples). -/
theorem rowAccess_perm (rows rows' : List StatRow) (side : StatRow → Option String)
    (k g p : String) (hp : rows.Perm rows')
    (hnd : (rows.map (fun r => (r.key, r.group, r.period))).Nodup) :
    rowAccess rows side k g p = rowAccess rows' side k g p := by
  unfold rowAccess
  rw [colExists_perm rows rows' side p hp, sideVal_perm rows rows' side k g p hp hnd]

/-- The per-group period loop is invariant under row permutation. -/
theorem periodsClause_perm (rows rows' : List StatRow) (k g : String) (hp : rows.Perm rows')
    (hnd : (rows.map (fun r => (r.key, r.group, r.period))).Nodup) :
    ∀ ps : List String, periodsClause rows k g ps = periodsClause rows' k g ps
  | [] => rfl
  | p :: ps => by
      simp only [periodsClause,
        rowAccess_perm rows rows' homeSide k g p hp hnd,
        rowAccess_perm rows rows' awaySide k g p hp hnd,
        periodsClause_perm rows rows' k g hp hnd ps]

/-- The statistics section is invariant under row permutation, for any
index list. -/
theorem statsSection_perm (rows rows' : List StatRow) (hp : rows.Perm rows')
    (hnd : (rows.map (fun r => (r.key, r.group, r.period))).Nodup) :
    ∀ idx : List (String × String), statsSection rows idx = statsSection rows' idx
  | [] => rfl
  | (k, g) :: rest => by
      simp only [statsSection,
        periodsClause_perm rows rows' k g hp hnd ["ALL", "1ST", "2ND"],
        statsSection_perm rows rows' hp hnd rest]

/-- The sorted pivot index is determined by the set of rows alone. -/
theorem pivotIndex_perm (rows rows' : List StatRow) (hp : rows.Perm rows') :
    pivotIndex rows = pivotIndex rows' := by
  have hd : (((rows.filter (fun r => r.home.isSome || r.away.isSome)).map
      (fun r => (r.key, r.group))).dedup).Perm
      (((rows'.filter (fun r => r.home.isSome || r.away.isSome)).map
      (fun r => (r.key, r.group))).dedup) :=
    ((hp.filter _).map _).dedup
  exact List.eq_of_perm_of_sorted
    ((List.perm_insertionSort pairRel _).trans
      (hd.trans (List.perm_insertionSort pairRel _).symm))
    (List.sorted_insertionSort pairRel _) (List.sorted_insertionSort pairRel _)

/-- C6: `get_team_llm_prompt` is deterministic and insertion-order
independent: on two arrival orders of the same set of statistic rows (each
(key, group, period) triple occurring once) and the same metadata it
produces identical output, and the statistic groups iterate in the sorted
(key, then group) order rather than insertion order. -/
theorem c6_prompt_order_independent (rows rows' : List StatRow) (md : MatchDict)
    (hp : rows.Perm rows')
    (hnd : (rows.map (fun r => (r.key, r.group, r.period))).Nodup) :
    get_team_llm_prompt rows md = get_team_llm_prompt rows' md ∧
    List.Sorted pairRel (pivotIndex rows) := by
  refine ⟨?_, List.sorted_insertionSort pairRel _⟩
  unfold get_team_llm_prompt
  rw [pivotIndex_perm rows rows' hp, statsSection_perm rows rows' hp hnd (pivotIndex rows')]

/-- Two-statistic table in one arrival order. -/
def c6rowsA : List StatRow :=
  [{ key := "Possession", group := "General", period := "ALL", home := some "60", away := some "40" },
   { key := "Fouls", group := "General", period := "ALL", home := some "10", away := some "12" }]

/-- The same two statistic rows in the opposite arrival order. -/
def c6rowsB : List StatRow :=
  [{ key := "Fouls", group := "General", period := "ALL", home := some "10", away := some "12" },
   { key := "Possession", group := "General", period := "ALL", home := some "60", away := some "40" }]

/-- Metadata used by the C6 witness. -/
def c6match : MatchDict :=
  { tournament_name := "Premier League", season_year := 2024, roundInfo_round := 10,
    homeTeam_name := "Liverpool", homeTeam_manager_name := "Arne Slot",
    awayTeam_name := "Man Utd", awayTeam_manager_name := "Ruben Amorim",
    venue_stadium_name := "Anfield",
    homeScore_period1 := 1, homeScore_current := 2,
    awayScore_period1 := 0, awayScore_current := 1 }

/-- Witness for C6 at a concrete pair of reordered tables. -/
theorem c6_prompt_order_witness :
    c6rowsA.Perm c6rowsB ∧
    (c6rowsA.map (fun r => (r.key, r.group, r.period))).Nodup ∧
    (get_team_llm_prompt c6rowsA c6match = get_team_llm_prompt c6rowsB c6match ∧
     List.Sorted pairRel (pivotIndex c6rowsA)) :=
  ⟨by decide, by decide,
   c6_prompt_order_independent c6rowsA c6rowsB c6match (by decide) (by decide)⟩
